import Mathlib

/-
Verification development for the dynamic-feedback-voice-client repository.

Shallow embedding of the audio streaming/playback pipeline:
  - `AudioStreamService` (src/services/audioStreamService.ts): the RxJS-based
    element queue with playback state, completion flag, and error recovery.
  - `UseSocket` (src/hooks/useSocket.ts): binary mime-type sniffing and the
    `sendTextInput` guard logic.
  - `RealtimeAudio` (the realtime hook source file): the chunk-accumulation /
    flush-decision engine for `response.audio.delta` events, and
    `createWavHeader`.
  - `Store` (src/store/useStore.ts): the page-navigation actions of the
    zustand store.

JS translation conventions: JS strings are Lean `String` (lengths are code
units via `String.length` on the ASCII data used here); JS `x & 0xff` and
`x >> k` on non-negative in-range numbers (below 2^31, the range in which
JS bitwise operators agree with plain integer arithmetic) are `x % 256`
and `x / 2 ^ k` on `Nat`; `Date.now()` timestamps are `Nat`; DOM audio
elements are records of the data the code stores in them (payload and the
mime type baked into their `src` URL).
-/

/-! ### String helpers (JS `String.startsWith` / `String.includes`) -/

/-- Boolean test that the first list is an initial segment of the second. -/
def chListLeads : List Char → List Char → Bool
  | [], _ => true
  | _ :: _, [] => false
  | a :: as, b :: bs => a == b && chListLeads as bs

/-- Boolean substring containment on character lists. -/
def chListHas (pat : List Char) : List Char → Bool
  | [] => pat.isEmpty
  | c :: rest => chListLeads pat (c :: rest) || chListHas pat rest

/-- JS `s.startsWith(pat)`. -/
def strStarts (s pat : String) : Bool := chListLeads pat.data s.data

/-- JS `s.includes(pat)`. -/
def strIncludes (s pat : String) : Bool := chListHas pat.data s.data

/-! ### AudioStreamService (src/services/audioStreamService.ts) -/

namespace AudioStreamService

/-- The `playbackStateSubject` values: `'idle' | 'playing' | 'buffering' | 'error'`. -/
inductive PlayState where
  | idle
  | playing
  | buffering
  | error
deriving DecidableEq, Repr

/-- One HTMLAudioElement as the service configures it: the base64 payload and
the mime type baked into its `data:` URL. -/
structure AudioElem where
  payload : String
  format : String
deriving DecidableEq, Repr

/-- The `src` data URL assigned to an element
(`audio.src = data:<format>;base64,<payload>`, line 130). -/
def elemSrc (e : AudioElem) : String :=
  "data:" ++ e.format ++ ";base64," ++ e.payload

/-- Mutable state of the service: `playbackStateSubject.value`,
`activeAudioElements`, `isProcessingComplete`; plus the observable outputs:
`errorLog` records every `errorSubject.next` and `streamedChunks` every
`audioChunksSubject.next`. -/
structure SvcState where
  playbackState : PlayState
  activeAudioElements : List AudioElem
  isProcessingComplete : Bool
  errorLog : List String
  streamedChunks : List String
deriving DecidableEq, Repr

/-- Initial state of a freshly constructed service. -/
def initState : SvcState :=
  { playbackState := .idle
    activeAudioElements := []
    isProcessingComplete := false
    errorLog := []
    streamedChunks := [] }

/-- Base64-text format sniffing of `createAndQueueAudioElement`
(lines 104-127): prefix checks on the base64 string. -/
def detectBase64Format (base64Audio : String) : String :=
  if strStarts base64Audio "GkXf" then "audio/webm"
  else if strStarts base64Audio "UklGR" then "audio/wav"
  else if strStarts base64Audio "T2dnU" then "audio/ogg"
  else if strStarts base64Audio "SUQz" || strStarts base64Audio "//M" then "audio/mpeg"
  else "audio/mpeg"

/-- `createAndQueueAudioElement` (lines 89-152): drops empty/short chunks
(`!base64Audio || base64Audio.length < 10`), otherwise builds an element with
the sniffed format and appends it to `activeAudioElements`.  Starting playback
of the first element has no effect on the modelled state. -/
def createAndQueueAudioElement (s : SvcState) (base64Audio : String) : SvcState :=
  if base64Audio.length < 10 then s
  else
    { s with activeAudioElements :=
        s.activeAudioElements ++ [⟨base64Audio, detectBase64Format base64Audio⟩] }

/-- `processAudioChunks` (lines 72-84): on a non-empty batch, move an `idle`
state to `buffering`, then queue each chunk in order. -/
def processAudioChunks (s : SvcState) (chunks : List String) : SvcState :=
  if chunks.isEmpty then s
  else
    let s1 := if s.playbackState = PlayState.idle
              then { s with playbackState := PlayState.buffering } else s
    chunks.foldl createAndQueueAudioElement s1

/-- `addAudioChunk` (lines 316-328): chunks shorter than 10 units are dropped
without any effect; others are emitted into `audioChunksSubject`. -/
def addAudioChunk (s : SvcState) (base64Audio : String) : SvcState :=
  if base64Audio.length < 10 then s
  else { s with streamedChunks := s.streamedChunks ++ [base64Audio] }

/-- `oncanplay` (lines 159-167): `buffering` becomes `playing`. -/
def onCanPlay (s : SvcState) : SvcState :=
  if s.playbackState = PlayState.buffering
  then { s with playbackState := PlayState.playing } else s

/-- `onended` (lines 170-191) for the element being played (the head of
`activeAudioElements`): remove it; play the next one if any; otherwise return
to `idle` only when `isProcessingComplete` is set. -/
def onEnded (s : SvcState) : SvcState :=
  match s.activeAudioElements with
  | [] => s
  | _ :: rest =>
    if rest.isEmpty then
      if s.isProcessingComplete then
        { s with activeAudioElements := [], playbackState := PlayState.idle }
      else { s with activeAudioElements := [] }
    else { s with activeAudioElements := rest }

/-- The three recovery formats of the `onerror` handler (lines 210-214). -/
def recoveryFormats : List String := ["audio/mpeg", "audio/wav", "audio/aac"]

/-- `onerror` (lines 194-266) for the element `e` being played (the head of
`activeAudioElements`).  `isDemuxerError` abstracts the test
`errorMsg.includes('DEMUXER_ERROR') || errorMsg.includes('Failed to load')`.
On a demuxer error with at most one element queued, recovery elements with the
same payload are pushed for each format not already present in `e`'s src, `e`
is removed, and (when any recovery format was tried and elements remain) the
handler returns early playing the head.  In every other case `e` is removed
and the next element, if any, is played.  The playback state subject is never
written by this handler. -/
def onErrorHead (s : SvcState) (isDemuxerError : Bool) : SvcState :=
  match s.activeAudioElements with
  | [] => s
  | e :: _ =>
    if isDemuxerError then
      let s1 := { s with errorLog := s.errorLog ++ ["demuxer:" ++ elemSrc e] }
      if s.activeAudioElements.length ≤ 1 then
        let recov := (recoveryFormats.filter
            (fun f => !(strIncludes (elemSrc e) f))).map
            (fun f => AudioElem.mk e.payload f)
        let formatTried := !recov.isEmpty
        let active1 := (s.activeAudioElements ++ recov).filter (fun x => x != e)
        if formatTried && !active1.isEmpty then
          { s1 with activeAudioElements := active1 }
        else
          { s1 with activeAudioElements := active1.filter (fun x => x != e) }
      else
        { s1 with activeAudioElements :=
            s.activeAudioElements.filter (fun x => x != e) }
    else
      { s with errorLog := s.errorLog ++ ["playback error"],
               activeAudioElements := s.activeAudioElements.filter (fun x => x != e) }

/-- `completeAudioStream` (lines 354-365): set `isProcessingComplete`; if no
elements remain, return to `idle` immediately. -/
def completeAudioStream (s : SvcState) : SvcState :=
  let s1 := { s with isProcessingComplete := true }
  if s1.activeAudioElements.isEmpty then
    { s1 with playbackState := PlayState.idle }
  else s1

/-- `stopPlayback` (lines 333-349): pause and release every element (they are
all removed from the queue), clear the queue, return to `idle`.
`isProcessingComplete` is not touched. -/
def stopPlayback (s : SvcState) : SvcState :=
  { s with activeAudioElements := [], playbackState := PlayState.idle }

/-- `reset` (lines 370-377): `stopPlayback` plus clearing `isProcessingComplete`. -/
def reset (s : SvcState) : SvcState :=
  { stopPlayback s with isProcessingComplete := false }

/-- The events that mutate the service state. -/
inductive SvcEvent where
  | procChunks (chunks : List String)
  | addChunk (base64Audio : String)
  | canplay
  | ended
  | errored (isDemuxerError : Bool)
  | complete
  | stop
  | resetEv
  | pipelineError
deriving DecidableEq, Repr

/-- One step of the service state machine. `pipelineError` is the RxJS
`catchError` branch (lines 59-63), the only writer of the `'error'` state. -/
def step (s : SvcState) : SvcEvent → SvcState
  | .procChunks cs => processAudioChunks s cs
  | .addChunk c => addAudioChunk s c
  | .canplay => onCanPlay s
  | .ended => onEnded s
  | .errored d => onErrorHead s d
  | .complete => completeAudioStream s
  | .stop => stopPlayback s
  | .resetEv => reset s
  | .pipelineError =>
      { s with playbackState := PlayState.error,
               errorLog := s.errorLog ++ ["pipeline error"] }

/-- Run a sequence of events from a state. -/
def run (s : SvcState) (evs : List SvcEvent) : SvcState := evs.foldl step s

end AudioStreamService

/-! ### useSocket (src/hooks/useSocket.ts) -/

namespace UseSocket

/-- `detectAudioMimeType` (lines 370-402): signature-based sniffing of the
first four bytes of a binary payload.  Bytes are `Nat` values of `Uint8Array`
entries; `&` is `Nat.land`.  Inputs with fewer than 4 bytes fall through to
the `'audio/mpeg'` default. -/
def detectAudioMimeType (audioData : List Nat) : String :=
  match audioData with
  | b0 :: b1 :: b2 :: b3 :: _ =>
    if b0 = 0x1A ∧ b1 = 0x45 ∧ b2 = 0xDF ∧ b3 = 0xA3 then "audio/webm"
    else if b0 = 0x52 ∧ b1 = 0x49 ∧ b2 = 0x46 ∧ b3 = 0x46 then "audio/wav"
    else if (b0 = 0x49 ∧ b1 = 0x44 ∧ b2 = 0x33) ∨ (b0 = 0xFF ∧ b1 &&& 0xE0 = 0xE0)
      then "audio/mpeg"
    else if b0 = 0x4F ∧ b1 = 0x67 ∧ b2 = 0x67 ∧ b3 = 0x53 then "audio/ogg"
    else if b0 = 0xFF ∧ b1 &&& 0xF0 = 0xF0 then "audio/aac"
    else if b0 = 0x66 ∧ b1 = 0x4C ∧ b2 = 0x61 ∧ b3 = 0x43 then "audio/flac"
    else "audio/mpeg"
  | _ => "audio/mpeg"

/-- The state `sendTextInput` reads and writes: the socket connection flag,
the store's `audioState.isRecording` / `audioState.isProcessing`, and the
hook-local `isProcessingPage`. -/
structure SocketCtx where
  connected : Bool
  isRecording : Bool
  isProcessing : Bool
  isProcessingPage : Bool
deriving DecidableEq, Repr

/-- The narration-request test of `sendTextInput` (line 950):
`text.includes('get_current_page_content') || text.includes('narrate page')`. -/
def isNarrationRequestText (text : String) : Bool :=
  strIncludes text "get_current_page_content" || strIncludes text "narrate page"

/-- `sendTextInput` (lines 943-985).  Returns the boolean result, the updated
state, and the list of `text-input` payloads emitted to the server. -/
def sendTextInput (st : SocketCtx) (text : String) : Bool × SocketCtx × List String :=
  if !st.connected then (false, st, [])
  else
    let isNarr := isNarrationRequestText text
    if !isNarr && st.isProcessing then (false, st, [])
    else if isNarr && st.isRecording then (false, st, [])
    else
      let st1 := if isNarr then { st with isProcessingPage := true }
                 else { st with isProcessing := true }
      (true, st1, [text])

end UseSocket

/-! ### Realtime audio hook (the `handleRealtimeEvent` source file) -/

namespace RealtimeAudio

/-- Mutable refs of the realtime hook that the `response.audio.delta` handler
(lines 1394-1445), `processAccumulatedChunks` (1601-1616) and
`processAndPlayAudioChunks` (1619-1772) touch.  `bufferTimeout` holds the
deadline (arm time + 300 ms) of the pending flush timer, if any.
`playedBatches` is the observable trace of batches handed to the playback
stage, each batch in accumulation order.  `lastFlushTime` is a ghost observer
recording when the most recent batch was handed to playback; the source keeps
no such variable (it reuses `lastChunkTime` for both arrivals and flushes),
and the ghost field is written exactly when a flush happens. -/
structure BatchState where
  accumulatedChunks : List String
  audioBufferChunks : List String
  audioChunksProcessed : Nat
  lastChunkTime : Nat
  lastFlushTime : Nat
  bufferTimeout : Option Nat
  playedBatches : List (List String)
deriving DecidableEq, Repr

/-- Initial refs of the hook. -/
def rtInit : BatchState :=
  { accumulatedChunks := []
    audioBufferChunks := []
    audioChunksProcessed := 0
    lastChunkTime := 0
    lastFlushTime := 0
    bufferTimeout := none
    playedBatches := [] }

/-- `processAndPlayAudioChunks` (lines 1619-1772): drain `audioBufferChunks`,
hand the joined batch to the playback stage, and advance
`audioChunksProcessed` by the number of chunks processed (line 1744). -/
def processAndPlayAudioChunks (s : BatchState) : BatchState :=
  if s.audioBufferChunks.isEmpty then s
  else
    { s with audioBufferChunks := []
             audioChunksProcessed := s.audioChunksProcessed + s.audioBufferChunks.length
             playedBatches := s.playedBatches ++ [s.audioBufferChunks] }

/-- `processAccumulatedChunks` (lines 1601-1616): move all accumulated chunks
to `audioBufferChunks` in order, stamp `lastChunkTime` with the current time
`t`, and process the buffer.  The ghost `lastFlushTime` is stamped here. -/
def processAccumulatedChunks (t : Nat) (s : BatchState) : BatchState :=
  if s.accumulatedChunks.isEmpty then s
  else
    processAndPlayAudioChunks
      { s with accumulatedChunks := []
               audioBufferChunks := s.audioBufferChunks ++ s.accumulatedChunks
               lastChunkTime := t
               lastFlushTime := t }

/-- `BUFFER_SIZE_THRESHOLD` (line 1411). -/
def sizeThreshold : Nat := 5

/-- `BUFFER_TIME_MS` (line 1412). -/
def flushTimerMs : Nat := 300

/-- The `response.audio.delta` handler (lines 1394-1445) for a chunk arriving
at time `t`: empty deltas are ignored; otherwise the chunk is accumulated, any
pending flush timer is cleared, and the flush decision runs in source order:
(1) buffer reached `BUFFER_SIZE_THRESHOLD` → flush now; (2) first batch with
at least 3 chunks → flush now; (3) more than 1000 ms since `lastChunkTime` →
flush now; (4) otherwise arm the 300 ms flush timer.  Finally `lastChunkTime`
is set to `t` (line 1444). -/
def onAudioDelta (t : Nat) (delta : String) (s : BatchState) : BatchState :=
  if delta.length = 0 then s
  else
    let s0 := { s with accumulatedChunks := s.accumulatedChunks ++ [delta]
                       bufferTimeout := none }
    let s1 :=
      if sizeThreshold ≤ s0.accumulatedChunks.length then
        processAccumulatedChunks t s0
      else if s0.audioChunksProcessed = 0 ∧ 3 ≤ s0.accumulatedChunks.length then
        processAccumulatedChunks t s0
      else if 0 < s0.lastChunkTime ∧ 1000 < t - s0.lastChunkTime then
        processAccumulatedChunks t s0
      else
        { s0 with bufferTimeout := some (t + flushTimerMs) }
    { s1 with lastChunkTime := t }

/-- The armed flush timer firing at time `t` (lines 1436-1440): if chunks are
pending, flush them.  The fired timer is no longer pending. -/
def onBufferTimeoutFire (t : Nat) (s : BatchState) : BatchState :=
  if s.bufferTimeout.isSome then
    let s0 := { s with bufferTimeout := none }
    if s0.accumulatedChunks.isEmpty then s0 else processAccumulatedChunks t s0
  else s

/-- Timed events of the delta/batching machine. -/
inductive RtEvent where
  | delta (t : Nat) (payload : String)
  | timerFire (t : Nat)
deriving DecidableEq, Repr

/-- One event step. -/
def rtStep (s : BatchState) : RtEvent → BatchState
  | .delta t p => onAudioDelta t p s
  | .timerFire t => onBufferTimeoutFire t s

/-- Run a sequence of timed events. -/
def rtRun (s : BatchState) (evs : List RtEvent) : BatchState := evs.foldl rtStep s

/-- `createWavHeader` (lines 1775-1842): the 44-byte linear-PCM WAV header.
JS `v & 0xff` is `v % 256` and `v >> k` is `v / 2 ^ k` (valid below 2^31);
single-byte `Uint8Array` stores are `% 256`. -/
def createWavHeader (dataLength sampleRate numChannels bitsPerSample : Nat) : List Nat :=
  let headerLength := 44
  let fileSize := dataLength + headerLength - 8
  let byteRate := sampleRate * numChannels * bitsPerSample / 8
  let blockAlign := numChannels * bitsPerSample / 8
  [0x52, 0x49, 0x46, 0x46,
   fileSize % 256, fileSize / 2 ^ 8 % 256, fileSize / 2 ^ 16 % 256, fileSize / 2 ^ 24 % 256,
   0x57, 0x41, 0x56, 0x45,
   0x66, 0x6d, 0x74, 0x20,
   16, 0, 0, 0,
   1, 0,
   numChannels % 256, 0,
   sampleRate % 256, sampleRate / 2 ^ 8 % 256, sampleRate / 2 ^ 16 % 256, sampleRate / 2 ^ 24 % 256,
   byteRate % 256, byteRate / 2 ^ 8 % 256, byteRate / 2 ^ 16 % 256, byteRate / 2 ^ 24 % 256,
   blockAlign % 256, 0,
   bitsPerSample % 256, 0,
   0x64, 0x61, 0x74, 0x61,
   dataLength % 256, dataLength / 2 ^ 8 % 256, dataLength / 2 ^ 16 % 256, dataLength / 2 ^ 24 % 256]

/-- The 4-byte little-endian rendering of a value, as the claims state it. -/
def le4 (v : Nat) : List Nat :=
  [v % 256, v / 2 ^ 8 % 256, v / 2 ^ 16 % 256, v / 2 ^ 24 % 256]

end RealtimeAudio

/-! ### Store page navigation (src/store/useStore.ts) -/

namespace Store

/-- The `pdfState` slice touched by page navigation (`pdfDoc` and `baseScale`
are never read or written by the three navigation actions and are omitted). -/
structure PdfState where
  pageNum : Int
  pageCount : Int
  forceRender : Int
deriving DecidableEq, Repr

/-- The `audioState` slice read and written by page navigation. -/
structure AudioFlags where
  isNarrating : Bool
  isNarrationPaused : Bool
  narrationCurrentPage : Int
deriving DecidableEq, Repr

/-- The store state the navigation actions operate on. -/
structure StoreState where
  pdfState : PdfState
  audioState : AudioFlags
deriving DecidableEq, Repr

/-- `setPageNum` (lines 125-159): no-op when the target equals the current
page, is below 1, or (when a page count is known) exceeds it; otherwise
update the page, bump `forceRender`, and when narration is active and not
paused also move `narrationCurrentPage`. -/
def setPageNum (pageNum : Int) (s : StoreState) : StoreState :=
  if pageNum = s.pdfState.pageNum ∨ pageNum < 1 ∨
      (0 < s.pdfState.pageCount ∧ s.pdfState.pageCount < pageNum) then s
  else
    let pdf1 := { s.pdfState with pageNum := pageNum,
                                  forceRender := s.pdfState.forceRender + 1 }
    if s.audioState.isNarrating && !s.audioState.isNarrationPaused then
      { pdfState := pdf1,
        audioState := { s.audioState with narrationCurrentPage := pageNum } }
    else { s with pdfState := pdf1 }

/-- `nextPage` (lines 166-197). -/
def nextPage (s : StoreState) : StoreState :=
  if s.pdfState.pageCount ≤ s.pdfState.pageNum then s
  else
    let p1 := s.pdfState.pageNum + 1
    let pdf1 := { s.pdfState with pageNum := p1,
                                  forceRender := s.pdfState.forceRender + 1 }
    if s.audioState.isNarrating && !s.audioState.isNarrationPaused then
      { pdfState := pdf1,
        audioState := { s.audioState with narrationCurrentPage := p1 } }
    else { s with pdfState := pdf1 }

/-- `prevPage` (lines 198-229). -/
def prevPage (s : StoreState) : StoreState :=
  if s.pdfState.pageNum ≤ 1 then s
  else
    let p1 := s.pdfState.pageNum - 1
    let pdf1 := { s.pdfState with pageNum := p1,
                                  forceRender := s.pdfState.forceRender + 1 }
    if s.audioState.isNarrating && !s.audioState.isNarrationPaused then
      { pdfState := pdf1,
        audioState := { s.audioState with narrationCurrentPage := p1 } }
    else { s with pdfState := pdf1 }

/-- The bounds invariant on the current page. -/
def pageInBounds (s : StoreState) : Prop :=
  1 ≤ s.pdfState.pageNum ∧ s.pdfState.pageNum ≤ s.pdfState.pageCount

end Store

/-! ## Theorems -/

open AudioStreamService RealtimeAudio

/-- Queueing a chunk never changes the playback state. -/
theorem createAndQueue_playbackState (s : SvcState) (c : String) :
    (createAndQueueAudioElement s c).playbackState = s.playbackState := by
  unfold createAndQueueAudioElement
  split <;> rfl

/-- Queueing a batch of chunks never changes the playback state. -/
theorem foldl_createAndQueue_playbackState (cs : List String) (s : SvcState) :
    (cs.foldl createAndQueueAudioElement s).playbackState = s.playbackState := by
  induction cs generalizing s with
  | nil => rfl
  | cons c cs ih => rw [List.foldl_cons, ih, createAndQueue_playbackState]

/-- The `onerror` handler never writes the playback state subject. -/
theorem onErrorHead_playbackState (s : SvcState) (d : Bool) :
    (onErrorHead s d).playbackState = s.playbackState := by
  unfold onErrorHead
  rcases hae : s.activeAudioElements with _ | ⟨e, rest⟩
  · rfl
  · dsimp only
    repeat' split
    all_goals rfl

/-- Every service event preserves the invariant that the `'idle'` state has no
queued elements. -/
theorem step_preserves_idleEmpty (s : SvcState) (ev : SvcEvent)
    (h : s.playbackState = .idle → s.activeAudioElements = []) :
    (step s ev).playbackState = .idle → (step s ev).activeAudioElements = [] := by
  cases ev with
  | procChunks cs =>
    show (processAudioChunks s cs).playbackState = .idle →
      (processAudioChunks s cs).activeAudioElements = []
    unfold processAudioChunks
    by_cases hcs : cs.isEmpty
    · simpa [hcs] using h
    · simp only [hcs, if_false, Bool.false_eq_true]
      intro hidle
      rw [foldl_createAndQueue_playbackState] at hidle
      split at hidle
      · simp at hidle
      · next hi => exact absurd hidle hi
  | addChunk c =>
    show (addAudioChunk s c).playbackState = .idle →
      (addAudioChunk s c).activeAudioElements = []
    unfold addAudioChunk
    split
    · exact h
    · exact h
  | canplay =>
    show (onCanPlay s).playbackState = .idle →
      (onCanPlay s).activeAudioElements = []
    unfold onCanPlay
    split
    · intro hidle
      simp at hidle
    · exact h
  | ended =>
    show (onEnded s).playbackState = .idle →
      (onEnded s).activeAudioElements = []
    unfold onEnded
    rcases hae : s.activeAudioElements with _ | ⟨e, rest⟩
    · intro _; exact hae
    · dsimp only
      split
      · split
        · intro _; rfl
        · intro _; rfl
      · intro hidle
        have hx := h hidle
        rw [hae] at hx
        exact absurd hx (by simp)
  | errored d =>
    intro hidle
    have hst : s.playbackState = .idle := by
      rw [← onErrorHead_playbackState s d]; exact hidle
    have hemp := h hst
    show (onErrorHead s d).activeAudioElements = []
    unfold onErrorHead
    rw [hemp]
    exact hemp
  | complete =>
    show (completeAudioStream s).playbackState = .idle →
      (completeAudioStream s).activeAudioElements = []
    unfold completeAudioStream
    dsimp only
    split
    · next hemp =>
      intro _
      rw [List.isEmpty_iff] at hemp
      exact hemp
    · next hne =>
      intro hidle
      have hx := h hidle
      rw [List.isEmpty_iff] at hne
      exact absurd hx hne
  | stop => intro _; rfl
  | resetEv => intro _; rfl
  | pipelineError =>
    intro hidle
    simp [step] at hidle

/-- From the initial state, the service never reports `'idle'` while elements
remain queued. -/
theorem svc_idle_inv (evs : List SvcEvent) :
    (run initState evs).playbackState = .idle →
    (run initState evs).activeAudioElements = [] := by
  have key : ∀ (l : List SvcEvent) (s : SvcState),
      (s.playbackState = .idle → s.activeAudioElements = []) →
      ((run s l).playbackState = .idle → (run s l).activeAudioElements = []) := by
    intro l
    induction l with
    | nil => intro s hs; exact hs
    | cons ev l ih =>
      intro s hs
      exact ih (step s ev) (step_preserves_idleEmpty s ev hs)
  exact key evs initState (fun _ => rfl)

/-- C1 (counterexample): the "reaches idle iff complete and empty" claim fails
on the error path.  Queue one valid chunk, signal completion, then let the
single element fail with a non-demuxer playback error: completion is
signalled and no element remains, yet the playback state never returns to
`'idle'` (it is stuck at `'buffering'`). -/
theorem C1_drain_counterexample :
    (run initState [.procChunks ["0123456789"], .complete, .errored false]).isProcessingComplete
        = true ∧
    (run initState [.procChunks ["0123456789"], .complete, .errored false]).activeAudioElements
        = [] ∧
    (run initState [.procChunks ["0123456789"], .complete, .errored false]).playbackState
        ≠ PlayState.idle := by
  refine ⟨rfl, by decide, by decide⟩

/-- C1 (amended): `completeAudioStream` on an empty element list transitions to
`'idle'` immediately (and records completion); with elements remaining it only
records completion and lets them play; the transition to `'idle'` happens on
the last element's `ended` callback provided completion was signalled; an
`ended` callback with further elements queued only advances the queue; and
from the initial state the service never reports `'idle'` while elements
remain queued.  (The original biconditional fails when the final element is
removed by the `error` callback: completion plus an empty queue then does not
yield `'idle'`.) -/
theorem C1_drain_amended :
    (∀ s : SvcState, s.activeAudioElements = [] →
        completeAudioStream s =
          { s with isProcessingComplete := true, playbackState := PlayState.idle }) ∧
    (∀ s : SvcState, s.activeAudioElements ≠ [] →
        completeAudioStream s = { s with isProcessingComplete := true }) ∧
    (∀ (s : SvcState) (e : AudioElem),
        s.activeAudioElements = [e] → s.isProcessingComplete = true →
        onEnded s =
          { s with activeAudioElements := [], playbackState := PlayState.idle }) ∧
    (∀ (s : SvcState) (e : AudioElem) (rest : List AudioElem),
        s.activeAudioElements = e :: rest → rest ≠ [] →
        onEnded s = { s with activeAudioElements := rest }) ∧
    (∀ evs : List SvcEvent, (run initState evs).playbackState = PlayState.idle →
        (run initState evs).activeAudioElements = []) := by
  refine ⟨?_, ?_, ?_, ?_, svc_idle_inv⟩
  · intro s h
    simp [completeAudioStream, h]
  · intro s h
    simp [completeAudioStream, List.isEmpty_iff, h]
  · intro s e h hc
    simp [onEnded, h, hc]
  · intro s e rest h hr
    simp [onEnded, h, List.isEmpty_iff, hr]

/-- C1 (witness): the amended theorem applied at concrete states. -/
theorem C1_drain_witness :
    (completeAudioStream initState =
      { initState with isProcessingComplete := true, playbackState := PlayState.idle }) ∧
    (completeAudioStream ⟨PlayState.playing, [⟨"0123456789", "audio/mpeg"⟩], false, [], []⟩ =
      { playbackState := PlayState.playing,
        activeAudioElements := [⟨"0123456789", "audio/mpeg"⟩],
        isProcessingComplete := true, errorLog := [], streamedChunks := [] }) ∧
    (onEnded ⟨PlayState.playing, [⟨"0123456789", "audio/mpeg"⟩], true, [], []⟩ =
      { playbackState := PlayState.idle, activeAudioElements := [],
        isProcessingComplete := true, errorLog := [], streamedChunks := [] }) ∧
    (onEnded ⟨PlayState.playing,
        [⟨"0123456789", "audio/mpeg"⟩, ⟨"9876543210", "audio/mpeg"⟩], false, [], []⟩ =
      { playbackState := PlayState.playing,
        activeAudioElements := [⟨"9876543210", "audio/mpeg"⟩],
        isProcessingComplete := false, errorLog := [], streamedChunks := [] }) ∧
    ((run initState [.stop]).activeAudioElements = []) :=
  ⟨C1_drain_amended.1 initState rfl,
   C1_drain_amended.2.1 _ (by decide),
   C1_drain_amended.2.2.1 _ ⟨"0123456789", "audio/mpeg"⟩ rfl rfl,
   C1_drain_amended.2.2.2.1 _ ⟨"0123456789", "audio/mpeg"⟩ [⟨"9876543210", "audio/mpeg"⟩]
     rfl (by decide),
   C1_drain_amended.2.2.2.2 [.stop] rfl⟩

/-- C2: a narration request (text containing `get_current_page_content` or
`narrate page`) sent while voice recording is active is rejected
synchronously: `sendTextInput` returns `false`, emits nothing, and mutates
neither `isProcessing` nor `isProcessingPage`. -/
theorem C2_narration_rejected_while_recording (st : UseSocket.SocketCtx) (text : String)
    (hnarr : UseSocket.isNarrationRequestText text = true)
    (hrec : st.isRecording = true) :
    UseSocket.sendTextInput st text = (false, st, []) := by
  unfold UseSocket.sendTextInput
  cases hc : st.connected
  · simp
  · simp [hnarr, hrec]

/-- C2 (witness): a concrete narration request while recording. -/
theorem C2_witness :
    UseSocket.isNarrationRequestText "narrate page 3" = true ∧
    (UseSocket.SocketCtx.mk true true false false).isRecording = true ∧
    UseSocket.sendTextInput ⟨true, true, false, false⟩ "narrate page 3" =
      (false, ⟨true, true, false, false⟩, []) :=
  ⟨by decide, rfl,
   C2_narration_rejected_while_recording ⟨true, true, false, false⟩ "narrate page 3"
     (by decide) rfl⟩

/-- C5: chunks shorter than 10 units are silently dropped — `addAudioChunk`
returns with the state (playback state, queue, error stream, chunk stream)
entirely unchanged, and so does the per-chunk element creation — while chunks
of length 10 or more are forwarded into the chunk stream. -/
theorem C5_undersized_chunks_dropped :
    (∀ (s : SvcState) (c : String), c.length < 10 → addAudioChunk s c = s) ∧
    (∀ (s : SvcState) (c : String), 10 ≤ c.length →
        addAudioChunk s c = { s with streamedChunks := s.streamedChunks ++ [c] }) ∧
    (∀ (s : SvcState) (c : String), c.length < 10 →
        createAndQueueAudioElement s c = s) := by
  refine ⟨?_, ?_, ?_⟩ <;> intro s c h
  · simp [addAudioChunk, h]
  · unfold addAudioChunk
    rw [if_neg (by omega)]
  · simp [createAndQueueAudioElement, h]

/-- C5 (witness): concrete undersized and viable chunks. -/
theorem C5_witness :
    ("short".length < 10 ∧ addAudioChunk initState "short" = initState) ∧
    (10 ≤ "0123456789".length ∧
      addAudioChunk initState "0123456789" =
        { initState with streamedChunks := initState.streamedChunks ++ ["0123456789"] }) ∧
    ("tiny".length < 10 ∧ createAndQueueAudioElement initState "tiny" = initState) :=
  ⟨⟨by decide, C5_undersized_chunks_dropped.1 initState "short" (by decide)⟩,
   ⟨by decide, C5_undersized_chunks_dropped.2.1 initState "0123456789" (by decide)⟩,
   ⟨by decide, C5_undersized_chunks_dropped.2.2 initState "tiny" (by decide)⟩⟩

/-- C9: `stopPlayback` releases every queued element, clears the queue and
returns to `'idle'` while leaving `isProcessingComplete` (and the error log)
untouched; `reset` additionally clears the completion flag and is idempotent:
repeating it, or calling it on an already fully idle state, yields the same
observable idle state. -/
theorem C9_stop_reset_frame :
    (∀ s : SvcState, (stopPlayback s).activeAudioElements = [] ∧
        (stopPlayback s).playbackState = PlayState.idle ∧
        (stopPlayback s).isProcessingComplete = s.isProcessingComplete ∧
        (stopPlayback s).errorLog = s.errorLog) ∧
    (∀ s : SvcState, reset (reset s) = reset s) ∧
    (∀ s : SvcState, s.playbackState = PlayState.idle → s.activeAudioElements = [] →
        s.isProcessingComplete = false → reset s = s) ∧
    (∀ s : SvcState, (reset s).playbackState = PlayState.idle ∧
        (reset s).activeAudioElements = [] ∧
        (reset s).isProcessingComplete = false) := by
  refine ⟨fun s => ⟨rfl, rfl, rfl, rfl⟩, fun s => rfl, ?_, fun s => ⟨rfl, rfl, rfl⟩⟩
  intro s h1 h2 h3
  cases s
  simp_all [reset, stopPlayback]

/-- C9 (witness): `reset` on the already idle initial state is the identity. -/
theorem C9_witness :
    initState.playbackState = PlayState.idle ∧
    initState.activeAudioElements = [] ∧
    initState.isProcessingComplete = false ∧
    reset initState = initState :=
  ⟨rfl, rfl, rfl, C9_stop_reset_frame.2.2.1 initState rfl rfl rfl⟩

/-- Filtering out an element that does not occur in a list leaves the list
unchanged. -/
theorem filter_bne_of_not_mem {α : Type} [DecidableEq α] (l : List α) (e : α)
    (h : e ∉ l) : l.filter (fun x => x != e) = l := by
  induction l with
  | nil => rfl
  | cons a l ih =>
    simp only [List.mem_cons, not_or] at h
    rw [List.filter_cons, if_pos, ih h.2]
    simp only [bne_iff_ne, ne_eq, decide_eq_true_eq]
    exact fun hh => h.1 hh.symm

/-- C6 (counterexample): a demuxer (decode/format) error on the playing
element while another element is queued triggers no format-fallback retry at
all: the failed element is dropped outright (no element carrying its payload —
under WAV or any other reinterpretation — is queued), contradicting the claim
that every decode error is retried before the segment is given up. -/
theorem C6_counterexample :
    (onErrorHead ⟨PlayState.playing,
        [⟨"AAAAAAAAAAAA", "audio/mpeg"⟩, ⟨"BBBBBBBBBBBB", "audio/mpeg"⟩],
        false, [], []⟩ true).activeAudioElements
      = [⟨"BBBBBBBBBBBB", "audio/mpeg"⟩] ∧
    ((onErrorHead ⟨PlayState.playing,
        [⟨"AAAAAAAAAAAA", "audio/mpeg"⟩, ⟨"BBBBBBBBBBBB", "audio/mpeg"⟩],
        false, [], []⟩ true).activeAudioElements.filter
        (fun x => x.payload == "AAAAAAAAAAAA")) = [] ∧
    (onErrorHead ⟨PlayState.playing,
        [⟨"AAAAAAAAAAAA", "audio/mpeg"⟩, ⟨"BBBBBBBBBBBB", "audio/mpeg"⟩],
        false, [], []⟩ true).playbackState = PlayState.playing := by
  refine ⟨by decide, by decide, by decide⟩

/-- C6 (amended): the format-fallback retry happens only when the failing
element is the sole queued element: a demuxer error on a lone MP3-labelled
element requeues its payload under the alternate containers WAV then AAC
(WAV among them); when other segments are queued the failed segment is
skipped immediately with no retry and the next queued segment begins; and in
every case the playback state is not transitioned by the element error
handler (in particular never to `'error'`). -/
theorem C6_segment_error_amended :
    (∀ (p : String) (ps : PlayState) (flag : Bool) (log sc : List String),
        strIncludes (elemSrc ⟨p, "audio/mpeg"⟩) "audio/mpeg" = true →
        strIncludes (elemSrc ⟨p, "audio/mpeg"⟩) "audio/wav" = false →
        strIncludes (elemSrc ⟨p, "audio/mpeg"⟩) "audio/aac" = false →
        onErrorHead ⟨ps, [⟨p, "audio/mpeg"⟩], flag, log, sc⟩ true =
          ⟨ps, [⟨p, "audio/wav"⟩, ⟨p, "audio/aac"⟩], flag,
           log ++ ["demuxer:" ++ elemSrc ⟨p, "audio/mpeg"⟩], sc⟩) ∧
    (∀ (s : SvcState) (e : AudioElem) (rest : List AudioElem) (d : Bool),
        s.activeAudioElements = e :: rest → rest ≠ [] → e ∉ rest →
        (onErrorHead s d).activeAudioElements = rest) ∧
    (∀ (s : SvcState) (d : Bool), (onErrorHead s d).playbackState = s.playbackState) := by
  refine ⟨?_, ?_, onErrorHead_playbackState⟩
  · intro p ps flag log sc h1 h2 h3
    simp [onErrorHead, recoveryFormats, h1, h2, h3]
  · intro s e rest d hae hne hnm
    unfold onErrorHead
    rcases hae' : s.activeAudioElements with _ | ⟨e', rest'⟩
    · rw [hae] at hae'; exact absurd hae' (by simp)
    · rw [hae] at hae'
      injection hae' with he hrest
      subst he; subst hrest
      dsimp only
      have hlen : ¬((e :: rest).length ≤ 1) := by
        rcases rest with _ | ⟨r, rs⟩
        · exact absurd rfl hne
        · simp
      have hfilter : (e :: rest).filter (fun x => x != e) = rest := by
        rw [List.filter_cons, if_neg (by simp), filter_bne_of_not_mem rest e hnm]
      rw [if_neg hlen]
      split
      · exact hfilter
      · exact hfilter

/-- C6 (witness): the amended theorem at a concrete lone failing element and a
concrete two-element queue. -/
theorem C6_witness :
    (onErrorHead ⟨PlayState.playing, [⟨"AAAAAAAAAAAA", "audio/mpeg"⟩], false, [], []⟩ true =
      ⟨PlayState.playing, [⟨"AAAAAAAAAAAA", "audio/wav"⟩, ⟨"AAAAAAAAAAAA", "audio/aac"⟩],
       false, ["demuxer:" ++ elemSrc ⟨"AAAAAAAAAAAA", "audio/mpeg"⟩], []⟩) ∧
    ((onErrorHead ⟨PlayState.playing,
        [⟨"AAAAAAAAAAAA", "audio/mpeg"⟩, ⟨"BBBBBBBBBBBB", "audio/wav"⟩],
        false, [], []⟩ false).activeAudioElements = [⟨"BBBBBBBBBBBB", "audio/wav"⟩]) := by
  constructor
  · exact C6_segment_error_amended.1 "AAAAAAAAAAAA" PlayState.playing false [] []
      (by decide) (by decide) (by decide)
  · exact C6_segment_error_amended.2.1 _ ⟨"AAAAAAAAAAAA", "audio/mpeg"⟩
      [⟨"BBBBBBBBBBBB", "audio/wav"⟩] false rfl (by decide) (by decide)

/-- C7: on the ADTS sync input `FF F1 00 00` the sniffer returns
`'audio/mpeg'`, not the claimed `'audio/aac'`; indeed no input at all can
reach the AAC branch, because the MPEG sync test `(b1 & E0) == E0` is checked
first and is implied by the ADTS test `(b1 & F0) == F0`. -/
theorem C7_adts_sync_yields_mpeg :
    UseSocket.detectAudioMimeType [0xFF, 0xF1, 0x00, 0x00] = "audio/mpeg" ∧
    ∀ audioData : List Nat, UseSocket.detectAudioMimeType audioData ≠ "audio/aac" := by
  constructor
  · rfl
  · intro a
    rcases a with _ | ⟨b0, _ | ⟨b1, _ | ⟨b2, _ | ⟨b3, rest⟩⟩⟩⟩
    · simp [UseSocket.detectAudioMimeType]
    · simp [UseSocket.detectAudioMimeType]
    · simp [UseSocket.detectAudioMimeType]
    · simp [UseSocket.detectAudioMimeType]
    · simp only [UseSocket.detectAudioMimeType]
      repeat' split
      all_goals try decide
      rename_i h1 h2 h3 h4 h5
      have h240 : (0xF0 : Nat) &&& 0xE0 = 0xE0 := by decide
      have hE : b1 &&& 0xE0 = 0xE0 := by
        calc b1 &&& 0xE0 = b1 &&& (0xF0 &&& 0xE0) := by rw [h240]
          _ = b1 &&& 0xF0 &&& 0xE0 := (Nat.land_assoc b1 0xF0 0xE0).symm
          _ = 0xF0 &&& 0xE0 := by rw [h5.2]
          _ = 0xE0 := h240
      exact absurd (Or.inr ⟨h5.1, hE⟩) h3

/-- C8: `createWavHeader` produces exactly 44 bytes with the linear-PCM WAV
layout the claim states: `RIFF` at 0, little-endian `dataLength + 36` at 4,
`WAVE` at 8, `fmt ` at 12, subchunk size 16 at 16, PCM format tag 1 at 20,
the channel count at 22, the little-endian sample rate at 24, the byte rate
`sampleRate * numChannels * bitsPerSample / 8` at 28, the block align
`numChannels * bitsPerSample / 8` at 32, the bits per sample at 34, `data`
at 36 and the little-endian `dataLength` at 40.  The single-byte bounds
hypotheses keep the one-byte stores of the code exactly equal to the claimed
field values. -/
theorem C8_wav_header_layout (d sr c b : Nat)
    (hc : c < 256) (hb : b < 256) (hba : c * b / 8 < 256) :
    (createWavHeader d sr c b).length = 44 ∧
    (createWavHeader d sr c b).take 4 = [0x52, 0x49, 0x46, 0x46] ∧
    ((createWavHeader d sr c b).drop 4).take 4 = le4 (d + 36) ∧
    ((createWavHeader d sr c b).drop 8).take 4 = [0x57, 0x41, 0x56, 0x45] ∧
    ((createWavHeader d sr c b).drop 12).take 4 = [0x66, 0x6d, 0x74, 0x20] ∧
    ((createWavHeader d sr c b).drop 16).take 4 = [16, 0, 0, 0] ∧
    ((createWavHeader d sr c b).drop 20).take 2 = [1, 0] ∧
    ((createWavHeader d sr c b).drop 22).take 2 = [c, 0] ∧
    ((createWavHeader d sr c b).drop 24).take 4 = le4 sr ∧
    ((createWavHeader d sr c b).drop 28).take 4 = le4 (sr * c * b / 8) ∧
    ((createWavHeader d sr c b).drop 32).take 2 = [c * b / 8, 0] ∧
    ((createWavHeader d sr c b).drop 34).take 2 = [b, 0] ∧
    ((createWavHeader d sr c b).drop 36).take 4 = [0x64, 0x61, 0x74, 0x61] ∧
    ((createWavHeader d sr c b).drop 40).take 4 = le4 d := by
  simp only [createWavHeader, le4]
  rw [show d + 44 - 8 = d + 36 from by omega, Nat.mod_eq_of_lt hc,
    Nat.mod_eq_of_lt hb, Nat.mod_eq_of_lt hba]
  and_intros <;> rfl

/-- C8 (witness): the layout theorem at the call site's actual arguments
(PCM16 mono at 24 kHz). -/
theorem C8_witness :
    (createWavHeader 1000 24000 1 16).length = 44 ∧
    ((createWavHeader 1000 24000 1 16).drop 28).take 4 = le4 (24000 * 1 * 16 / 8) ∧
    ((createWavHeader 1000 24000 1 16).drop 40).take 4 = le4 1000 := by
  have h := C8_wav_header_layout 1000 24000 1 16 (by decide) (by decide) (by decide)
  exact ⟨h.1, h.2.2.2.2.2.2.2.2.2.1, h.2.2.2.2.2.2.2.2.2.2.2.2.2⟩

/-- A flush with pending accumulated chunks drains both buffers and hands one
batch — buffered chunks then accumulated chunks, in order — to playback. -/
theorem processAccumulatedChunks_spec (t : Nat) (s : BatchState)
    (h : s.accumulatedChunks ≠ []) :
    processAccumulatedChunks t s =
      { s with accumulatedChunks := [],
               audioBufferChunks := [],
               audioChunksProcessed := s.audioChunksProcessed +
                 (s.audioBufferChunks ++ s.accumulatedChunks).length,
               lastChunkTime := t,
               lastFlushTime := t,
               playedBatches :=
                 s.playedBatches ++ [s.audioBufferChunks ++ s.accumulatedChunks] } := by
  unfold processAccumulatedChunks
  rw [if_neg (by simpa [List.isEmpty_iff] using h)]
  unfold processAndPlayAudioChunks
  rw [if_neg (by simp [List.isEmpty_iff, h])]

/-- A delta that fills the buffer to the size threshold flushes synchronously. -/
theorem onAudioDelta_flush_threshold (s : BatchState) (t : Nat) (d : String)
    (hd : d.length ≠ 0) (hlen : 4 ≤ s.accumulatedChunks.length) :
    onAudioDelta t d s =
      { s with accumulatedChunks := [],
               audioBufferChunks := [],
               audioChunksProcessed := s.audioChunksProcessed +
                 (s.audioBufferChunks ++ (s.accumulatedChunks ++ [d])).length,
               lastChunkTime := t,
               lastFlushTime := t,
               bufferTimeout := none,
               playedBatches := s.playedBatches ++
                 [s.audioBufferChunks ++ (s.accumulatedChunks ++ [d])] } := by
  unfold onAudioDelta
  rw [if_neg hd]
  dsimp only
  rw [if_pos (by simp [sizeThreshold]; omega)]
  rw [processAccumulatedChunks_spec t _ (by simp)]

/-- A delta under the size threshold, not in the first-batch window, with no
1000 ms idle gap since the last activity, only accumulates and (re)arms the
300 ms flush timer. -/
theorem onAudioDelta_accumulate (s : BatchState) (t : Nat) (d : String)
    (hd : d.length ≠ 0)
    (hlen : s.accumulatedChunks.length + 1 < 5)
    (hfirst : s.audioChunksProcessed = 0 → s.accumulatedChunks.length + 1 < 3)
    (hidle : ¬(0 < s.lastChunkTime ∧ 1000 < t - s.lastChunkTime)) :
    onAudioDelta t d s =
      { s with accumulatedChunks := s.accumulatedChunks ++ [d],
               bufferTimeout := some (t + flushTimerMs),
               lastChunkTime := t } := by
  unfold onAudioDelta
  rw [if_neg hd]
  dsimp only
  rw [if_neg (by simp [sizeThreshold]; omega)]
  rw [if_neg (by rintro ⟨hp, hl⟩; have := hfirst hp; simp at hl; omega)]
  rw [if_neg hidle]

/-- A delta under the size threshold, not in the first-batch window, arriving
more than 1000 ms after the last activity, flushes immediately. -/
theorem onAudioDelta_flush_idle (s : BatchState) (t : Nat) (d : String)
    (hd : d.length ≠ 0)
    (hlen : s.accumulatedChunks.length + 1 < 5)
    (hfirst : s.audioChunksProcessed = 0 → s.accumulatedChunks.length + 1 < 3)
    (h0 : 0 < s.lastChunkTime) (hgap : 1000 < t - s.lastChunkTime) :
    onAudioDelta t d s =
      { s with accumulatedChunks := [],
               audioBufferChunks := [],
               audioChunksProcessed := s.audioChunksProcessed +
                 (s.audioBufferChunks ++ (s.accumulatedChunks ++ [d])).length,
               lastChunkTime := t,
               lastFlushTime := t,
               bufferTimeout := none,
               playedBatches := s.playedBatches ++
                 [s.audioBufferChunks ++ (s.accumulatedChunks ++ [d])] } := by
  unfold onAudioDelta
  rw [if_neg hd]
  dsimp only
  rw [if_neg (by simp [sizeThreshold]; omega)]
  rw [if_neg (by rintro ⟨hp, hl⟩; have := hfirst hp; simp at hl; omega)]
  rw [if_pos ⟨h0, hgap⟩]
  rw [processAccumulatedChunks_spec t _ (by simp)]

/-- The armed flush timer firing with pending chunks flushes them. -/
theorem onBufferTimeoutFire_spec (t : Nat) (s : BatchState)
    (harm : s.bufferTimeout.isSome = true) (hacc : s.accumulatedChunks ≠ []) :
    onBufferTimeoutFire t s =
      { s with accumulatedChunks := [],
               audioBufferChunks := [],
               audioChunksProcessed := s.audioChunksProcessed +
                 (s.audioBufferChunks ++ s.accumulatedChunks).length,
               lastChunkTime := t,
               lastFlushTime := t,
               bufferTimeout := none,
               playedBatches :=
                 s.playedBatches ++ [s.audioBufferChunks ++ s.accumulatedChunks] } := by
  unfold onBufferTimeoutFire
  rw [if_pos harm]
  dsimp only
  rw [if_neg (by simpa [List.isEmpty_iff] using hacc)]
  rw [processAccumulatedChunks_spec t { s with bufferTimeout := none } hacc]

/-- C3: whenever an arriving delta chunk brings the accumulated buffer to the
size threshold of 5, the buffer is flushed synchronously — emptied, with no
flush timer armed, and the batch handed to playback in accumulation order —
and in particular five back-to-back chunks arriving mid-stream (first batch
already played, each inter-chunk gap under the 300 ms timer window, so the
armed timer cannot fire between arrivals) produce no flush on chunks 1-4 and
a synchronous flush of `[d1, d2, d3, d4, d5]` on the 5th. -/
theorem C3_size_threshold_flush :
    (∀ (s : BatchState) (t : Nat) (d : String), d.length ≠ 0 →
        4 ≤ s.accumulatedChunks.length →
        (onAudioDelta t d s).accumulatedChunks = [] ∧
        (onAudioDelta t d s).bufferTimeout = none ∧
        (onAudioDelta t d s).playedBatches =
          s.playedBatches ++ [s.audioBufferChunks ++ (s.accumulatedChunks ++ [d])]) ∧
    (∀ (s : BatchState) (t1 t2 t3 t4 t5 : Nat) (d1 d2 d3 d4 d5 : String),
        s.accumulatedChunks = [] → s.audioBufferChunks = [] →
        s.audioChunksProcessed ≠ 0 →
        d1.length ≠ 0 → d2.length ≠ 0 → d3.length ≠ 0 → d4.length ≠ 0 → d5.length ≠ 0 →
        t1 ≤ s.lastChunkTime + 1000 → t2 < t1 + 300 → t3 < t2 + 300 →
        t4 < t3 + 300 → t5 < t4 + 300 →
        (onAudioDelta t4 d4 (onAudioDelta t3 d3 (onAudioDelta t2 d2
            (onAudioDelta t1 d1 s)))).playedBatches = s.playedBatches ∧
        (onAudioDelta t5 d5 (onAudioDelta t4 d4 (onAudioDelta t3 d3 (onAudioDelta t2 d2
            (onAudioDelta t1 d1 s))))).playedBatches =
          s.playedBatches ++ [[d1, d2, d3, d4, d5]] ∧
        (onAudioDelta t5 d5 (onAudioDelta t4 d4 (onAudioDelta t3 d3 (onAudioDelta t2 d2
            (onAudioDelta t1 d1 s))))).accumulatedChunks = []) := by
  constructor
  · intro s t d hd hlen
    rw [onAudioDelta_flush_threshold s t d hd hlen]
    exact ⟨rfl, rfl, rfl⟩
  · intro s t1 t2 t3 t4 t5 d1 d2 d3 d4 d5 hacc hbuf hproc hd1 hd2 hd3 hd4 hd5
      hg1 hg2 hg3 hg4 hg5
    obtain ⟨acc, buf, proc, lct, lft, bto, played⟩ := s
    replace hacc : acc = [] := hacc
    replace hbuf : buf = [] := hbuf
    replace hproc : proc ≠ 0 := hproc
    replace hg1 : t1 ≤ lct + 1000 := hg1
    subst hacc
    subst hbuf
    have e1 : onAudioDelta t1 d1 ⟨[], [], proc, lct, lft, bto, played⟩ =
        ⟨[d1], [], proc, t1, lft, some (t1 + flushTimerMs), played⟩ := by
      rw [onAudioDelta_accumulate _ t1 d1 hd1 (by simp)
        (fun hp => absurd hp hproc) (by change ¬(0 < lct ∧ 1000 < t1 - lct); omega)]
      rfl
    have e2 : onAudioDelta t2 d2 ⟨[d1], [], proc, t1, lft, some (t1 + flushTimerMs), played⟩ =
        ⟨[d1, d2], [], proc, t2, lft, some (t2 + flushTimerMs), played⟩ := by
      rw [onAudioDelta_accumulate _ t2 d2 hd2 (by simp)
        (fun hp => absurd hp hproc) (by change ¬(0 < t1 ∧ 1000 < t2 - t1); omega)]
      rfl
    have e3 : onAudioDelta t3 d3 ⟨[d1, d2], [], proc, t2, lft, some (t2 + flushTimerMs), played⟩ =
        ⟨[d1, d2, d3], [], proc, t3, lft, some (t3 + flushTimerMs), played⟩ := by
      rw [onAudioDelta_accumulate _ t3 d3 hd3 (by simp)
        (fun hp => absurd hp hproc) (by change ¬(0 < t2 ∧ 1000 < t3 - t2); omega)]
      rfl
    have e4 : onAudioDelta t4 d4
          ⟨[d1, d2, d3], [], proc, t3, lft, some (t3 + flushTimerMs), played⟩ =
        ⟨[d1, d2, d3, d4], [], proc, t4, lft, some (t4 + flushTimerMs), played⟩ := by
      rw [onAudioDelta_accumulate _ t4 d4 hd4 (by simp)
        (fun hp => absurd hp hproc) (by change ¬(0 < t3 ∧ 1000 < t4 - t3); omega)]
      rfl
    have e5 : onAudioDelta t5 d5
          ⟨[d1, d2, d3, d4], [], proc, t4, lft, some (t4 + flushTimerMs), played⟩ =
        ⟨[], [], proc + 5, t5, t5, none, played ++ [[d1, d2, d3, d4, d5]]⟩ := by
      rw [onAudioDelta_flush_threshold _ t5 d5 hd5 (by simp)]
      rfl
    rw [e1, e2, e3, e4, e5]
    exact ⟨rfl, rfl, rfl⟩

/-- C3 (witness): five back-to-back chunks from a concrete mid-stream state. -/
theorem C3_witness :
    (onAudioDelta 2004 "e" (onAudioDelta 2003 "dd" (onAudioDelta 2002 "c"
        (onAudioDelta 2001 "b" (onAudioDelta 2000 "a"
          ⟨[], [], 1, 1000, 1000, none, [["x"]]⟩))))).playedBatches =
      [["x"], ["a", "b", "c", "dd", "e"]] ∧
    (onAudioDelta 2003 "dd" (onAudioDelta 2002 "c" (onAudioDelta 2001 "b"
        (onAudioDelta 2000 "a"
          ⟨[], [], 1, 1000, 1000, none, [["x"]]⟩)))).playedBatches = [["x"]] := by
  have h := C3_size_threshold_flush.2 ⟨[], [], 1, 1000, 1000, none, [["x"]]⟩
    2000 2001 2002 2003 2004 "a" "b" "c" "dd" "e" rfl rfl
    (by decide) (by decide) (by decide) (by decide) (by decide) (by decide)
    (by decide) (by decide) (by decide) (by decide) (by decide)
  exact ⟨h.2.1, h.1⟩

/-- C4 (counterexample): the idle-gap test compares against the time of the
most recent chunk arrival, not the time of the previous flush.  Trace: chunk
`"a"` at t=1000 arms the timer; the timer fires at t=1300 and flushes `["a"]`
(the last flush); chunk `"b"` at t=2200 arms the timer; chunk `"c"` at t=2400
arrives 1100 ms after the previous flush — by the claim the pending buffer
should flush immediately — yet the code leaves `["b", "c"]` pending, hands
nothing new to playback, and merely re-arms the 300 ms timer. -/
theorem C4_counterexample :
    (rtRun rtInit [.delta 1000 "a", .timerFire 1300, .delta 2200 "b",
        .delta 2400 "c"]).lastFlushTime = 1300 ∧
    1000 < 2400 - (rtRun rtInit [.delta 1000 "a", .timerFire 1300, .delta 2200 "b",
        .delta 2400 "c"]).lastFlushTime ∧
    (rtRun rtInit [.delta 1000 "a", .timerFire 1300, .delta 2200 "b",
        .delta 2400 "c"]).accumulatedChunks = ["b", "c"] ∧
    (rtRun rtInit [.delta 1000 "a", .timerFire 1300, .delta 2200 "b",
        .delta 2400 "c"]).playedBatches = [["a"]] ∧
    (rtRun rtInit [.delta 1000 "a", .timerFire 1300, .delta 2200 "b",
        .delta 2400 "c"]).bufferTimeout = some 2700 := by
  refine ⟨by decide, by decide, by decide, by decide, by decide⟩

/-- C4 (amended): for a chunk below the size threshold and outside the
first-batch window, the immediate-flush test is on the time since the most
recent prior chunk arrival (`lastChunkTime`, which each flush also refreshes),
not on the time since the previous flush: if that gap exceeds 1000 ms the
pending buffer is flushed immediately; otherwise a 300 ms flush timer is
armed (or refreshed), and when it fires with chunks still pending it flushes
the partial buffer. -/
theorem C4_flush_policy_amended :
    (∀ (s : BatchState) (t : Nat) (d : String), d.length ≠ 0 →
        s.accumulatedChunks.length + 1 < 5 →
        (s.audioChunksProcessed = 0 → s.accumulatedChunks.length + 1 < 3) →
        0 < s.lastChunkTime → 1000 < t - s.lastChunkTime →
        (onAudioDelta t d s).accumulatedChunks = [] ∧
        (onAudioDelta t d s).bufferTimeout = none ∧
        (onAudioDelta t d s).playedBatches =
          s.playedBatches ++ [s.audioBufferChunks ++ (s.accumulatedChunks ++ [d])]) ∧
    (∀ (s : BatchState) (t : Nat) (d : String), d.length ≠ 0 →
        s.accumulatedChunks.length + 1 < 5 →
        (s.audioChunksProcessed = 0 → s.accumulatedChunks.length + 1 < 3) →
        ¬(0 < s.lastChunkTime ∧ 1000 < t - s.lastChunkTime) →
        onAudioDelta t d s =
          { s with accumulatedChunks := s.accumulatedChunks ++ [d],
                   bufferTimeout := some (t + flushTimerMs),
                   lastChunkTime := t }) ∧
    (∀ (s : BatchState) (t : Nat), s.bufferTimeout.isSome = true →
        s.accumulatedChunks ≠ [] →
        (onBufferTimeoutFire t s).accumulatedChunks = [] ∧
        (onBufferTimeoutFire t s).playedBatches =
          s.playedBatches ++ [s.audioBufferChunks ++ s.accumulatedChunks]) := by
  refine ⟨?_, onAudioDelta_accumulate, ?_⟩
  · intro s t d hd hlen hfirst h0 hgap
    rw [onAudioDelta_flush_idle s t d hd hlen hfirst h0 hgap]
    exact ⟨rfl, rfl, rfl⟩
  · intro s t harm hacc
    rw [onBufferTimeoutFire_spec t s harm hacc]
    exact ⟨rfl, rfl⟩

/-- C4 (witness): the amended flush policy at concrete states — an idle-gap
flush, a timer arm, and a timer-fire flush. -/
theorem C4_witness :
    ((onAudioDelta 3000 "b" ⟨["a"], [], 1, 1500, 1500, none, []⟩).playedBatches
      = [] ++ [[] ++ (["a"] ++ ["b"])]) ∧
    (onAudioDelta 1600 "b" ⟨["a"], [], 1, 1500, 1500, none, []⟩ =
      ⟨["a", "b"], [], 1, 1600, 1500, some (1600 + flushTimerMs), []⟩) ∧
    ((onBufferTimeoutFire 1800 ⟨["a"], [], 1, 1500, 1500, some 1800, []⟩).playedBatches
      = [] ++ [[] ++ ["a"]]) := by
  refine ⟨?_, ?_, ?_⟩
  · exact (C4_flush_policy_amended.1 ⟨["a"], [], 1, 1500, 1500, none, []⟩ 3000 "b"
      (by decide) (by decide) (fun hp => absurd hp (by decide))
      (by decide) (by decide)).2.2
  · exact C4_flush_policy_amended.2.1 ⟨["a"], [], 1, 1500, 1500, none, []⟩ 1600 "b"
      (by decide) (by decide) (fun hp => absurd hp (by decide)) (by decide)
  · exact (C4_flush_policy_amended.2.2 ⟨["a"], [], 1, 1500, 1500, some 1800, []⟩ 1800
      rfl (by decide)).2

/-- C10: each navigation action is a strict no-op outside its legal range
(`setPageNum` on the current page, below 1, or past a known page count;
`nextPage` at the last page; `prevPage` at page 1); from any state satisfying
the bounds invariant all three actions preserve it; and when narration is
active and not paused, an action that changes the page sets
`narrationCurrentPage` to the new page number. -/
theorem C10_navigation_bounds :
    (∀ (s : Store.StoreState) (p : Int),
        (p = s.pdfState.pageNum ∨ p < 1 ∨
          (0 < s.pdfState.pageCount ∧ s.pdfState.pageCount < p)) →
        Store.setPageNum p s = s) ∧
    (∀ s : Store.StoreState, s.pdfState.pageCount ≤ s.pdfState.pageNum →
        Store.nextPage s = s) ∧
    (∀ s : Store.StoreState, s.pdfState.pageNum ≤ 1 → Store.prevPage s = s) ∧
    (∀ (s : Store.StoreState) (p : Int), Store.pageInBounds s →
        Store.pageInBounds (Store.setPageNum p s) ∧
        Store.pageInBounds (Store.nextPage s) ∧
        Store.pageInBounds (Store.prevPage s)) ∧
    (∀ (s : Store.StoreState) (p : Int),
        s.audioState.isNarrating = true → s.audioState.isNarrationPaused = false →
        ¬(p = s.pdfState.pageNum ∨ p < 1 ∨
          (0 < s.pdfState.pageCount ∧ s.pdfState.pageCount < p)) →
        (Store.setPageNum p s).pdfState.pageNum = p ∧
        (Store.setPageNum p s).audioState.narrationCurrentPage = p) ∧
    (∀ s : Store.StoreState,
        s.audioState.isNarrating = true → s.audioState.isNarrationPaused = false →
        s.pdfState.pageNum < s.pdfState.pageCount →
        (Store.nextPage s).pdfState.pageNum = s.pdfState.pageNum + 1 ∧
        (Store.nextPage s).audioState.narrationCurrentPage = s.pdfState.pageNum + 1) ∧
    (∀ s : Store.StoreState,
        s.audioState.isNarrating = true → s.audioState.isNarrationPaused = false →
        1 < s.pdfState.pageNum →
        (Store.prevPage s).pdfState.pageNum = s.pdfState.pageNum - 1 ∧
        (Store.prevPage s).audioState.narrationCurrentPage = s.pdfState.pageNum - 1) := by
  refine ⟨?_, ?_, ?_, ?_, ?_, ?_, ?_⟩
  · intro s p h
    unfold Store.setPageNum
    rw [if_pos h]
  · intro s h
    unfold Store.nextPage
    rw [if_pos h]
  · intro s h
    unfold Store.prevPage
    rw [if_pos h]
  · intro s p hb
    obtain ⟨hb1, hb2⟩ := hb
    refine ⟨?_, ?_, ?_⟩
    · unfold Store.setPageNum
      split
      · exact ⟨hb1, hb2⟩
      · next hcond =>
        push_neg at hcond
        obtain ⟨h1, h2, h3⟩ := hcond
        have hp1 : 1 ≤ p := by omega
        have hp2 : p ≤ s.pdfState.pageCount := by
          have := h3 (by omega)
          omega
        dsimp only
        split
        · exact ⟨hp1, hp2⟩
        · exact ⟨hp1, hp2⟩
    · unfold Store.nextPage
      split
      · exact ⟨hb1, hb2⟩
      · next hcond =>
        dsimp only
        split
        · refine ⟨?_, ?_⟩ <;> (dsimp only; omega)
        · refine ⟨?_, ?_⟩ <;> (dsimp only; omega)
    · unfold Store.prevPage
      split
      · exact ⟨hb1, hb2⟩
      · next hcond =>
        dsimp only
        split
        · refine ⟨?_, ?_⟩ <;> (dsimp only; omega)
        · refine ⟨?_, ?_⟩ <;> (dsimp only; omega)
  · intro s p hn hp hcond
    unfold Store.setPageNum
    rw [if_neg hcond]
    dsimp only
    rw [if_pos (by simp [hn, hp])]
    exact ⟨rfl, rfl⟩
  · intro s hn hp hlt
    unfold Store.nextPage
    rw [if_neg (by omega)]
    dsimp only
    rw [if_pos (by simp [hn, hp])]
    exact ⟨rfl, rfl⟩
  · intro s hn hp hgt
    unfold Store.prevPage
    rw [if_neg (by omega)]
    dsimp only
    rw [if_pos (by simp [hn, hp])]
    exact ⟨rfl, rfl⟩

/-- C10 (witness): the navigation theorem at a concrete narrating store
state (page 2 of 5). -/
theorem C10_witness :
    (Store.setPageNum 0 ⟨⟨2, 5, 0⟩, ⟨true, false, 2⟩⟩ = ⟨⟨2, 5, 0⟩, ⟨true, false, 2⟩⟩) ∧
    (Store.pageInBounds
      (Store.nextPage ⟨⟨2, 5, 0⟩, ⟨true, false, 2⟩⟩)) ∧
    ((Store.nextPage ⟨⟨2, 5, 0⟩, ⟨true, false, 2⟩⟩).pdfState.pageNum = 3 ∧
      (Store.nextPage ⟨⟨2, 5, 0⟩, ⟨true, false, 2⟩⟩).audioState.narrationCurrentPage = 3) ∧
    ((Store.prevPage ⟨⟨2, 5, 0⟩, ⟨true, false, 2⟩⟩).pdfState.pageNum = 1 ∧
      (Store.prevPage ⟨⟨2, 5, 0⟩, ⟨true, false, 2⟩⟩).audioState.narrationCurrentPage = 1) := by
  refine ⟨?_, ?_, ?_, ?_⟩
  · exact C10_navigation_bounds.1 ⟨⟨2, 5, 0⟩, ⟨true, false, 2⟩⟩ 0 (by right; left; decide)
  · exact ((C10_navigation_bounds.2.2.2.1 ⟨⟨2, 5, 0⟩, ⟨true, false, 2⟩⟩ 0)
      ⟨by decide, by decide⟩).2.1
  · exact C10_navigation_bounds.2.2.2.2.2.1 ⟨⟨2, 5, 0⟩, ⟨true, false, 2⟩⟩ rfl rfl (by decide)
  · exact C10_navigation_bounds.2.2.2.2.2.2 ⟨⟨2, 5, 0⟩, ⟨true, false, 2⟩⟩ rfl rfl (by decide)
